import Mathlib

/-!
Verification development for the Clawtick CLI (TypeScript).

The definitions below are a shallow embedding of the repository's code:
  * `src/api-client.ts` (config store and `ApiClient`),
  * `src/validation.ts` (the field validators),
  * `src/cli.ts` (the command actions: login, logout, jobs create/update,
    jobs trigger --sync, doctor, status).

JavaScript runtime behaviour is made explicit: `undefined`-able values
become `Option`, truthiness becomes explicit checks, thrown errors become
`Except`, the filesystem becomes an explicit `FileState`, and the network
becomes explicit response values threaded through the modelled actions.
-/

namespace Clawtick

/-- Model of a JavaScript/JSON value as the code observes it.  Numbers keep
their JSON lexeme: the code never does arithmetic on parsed JSON numbers,
it only tests types and truthiness. -/
inductive JsValue where
  | null
  | bool (b : Bool)
  | num (lexeme : String)
  | str (s : String)
  | arr (elems : List JsValue)
  | obj (fields : List (String × JsValue))

/-- A JSON number lexeme denotes zero iff every mantissa digit is zero. -/
def jsonNumIsZero (lex : String) : Bool :=
  let cs := lex.toList
  let cs := match cs with
    | '-' :: r => r
    | r => r
  let mantissa := cs.takeWhile (fun c => c ≠ 'e' ∧ c ≠ 'E')
  mantissa.all (fun c => c = '0' ∨ c = '.')

/-- JavaScript truthiness of a value. -/
def jsTruthy : JsValue → Bool
  | .null => false
  | .bool b => b
  | .num lex => !(jsonNumIsZero lex)
  | .str s => s ≠ ""
  | .arr _ => true
  | .obj _ => true

/-- Truthiness of a possibly-`undefined` value (`none` models `undefined`). -/
def jsTruthyO : Option JsValue → Bool
  | none => false
  | some v => jsTruthy v

/-- Truthiness of a possibly-`undefined` string option value. -/
def truthyOS : Option String → Bool
  | none => false
  | some s => s ≠ ""

/-- JavaScript `a || b` on possibly-`undefined` strings. -/
def jsOrOS (a b : Option String) : Option String :=
  if truthyOS a then a else b

/-- JavaScript `a || b` where `a` is a possibly-absent string and `b` a
string (used for `data.error || fallback`). -/
def jsOrStr (a : Option String) (b : String) : String :=
  match a with
  | some s => if s = "" then b else s
  | none => b

/-- Property lookup on a field list (first binding wins; the builders below
keep keys unique, mirroring JavaScript objects). -/
def getField : List (String × JsValue) → String → Option JsValue
  | [], _ => none
  | p :: rest, k => if p.1 = k then some p.2 else getField rest k

/-- JavaScript property assignment `o[k] = v`: replace the binding in place
if the key exists, otherwise append it. -/
def setField (fs : List (String × JsValue)) (k : String) (v : JsValue) :
    List (String × JsValue) :=
  if fs.any (fun p => p.1 = k) then
    fs.map (fun p => if p.1 = k then (k, v) else p)
  else
    fs ++ [(k, v)]

/-- JavaScript object spread `\x7b...base, ...upd\x7d`: later keys win,
first occurrence keeps its position. -/
def spreadMerge (base upd : List (String × JsValue)) : List (String × JsValue) :=
  upd.foldl (fun acc p => setField acc p.1 p.2) base

/-- Property access `v.k` on an arbitrary value (`undefined` on non-objects;
this model ignores the index properties of primitive strings, which never
collide with the config keys the code reads). -/
def jsGet (v : JsValue) (k : String) : Option JsValue :=
  match v with
  | .obj fs => getField fs k
  | _ => none

/-- The own string-keyed fields a value contributes under object spread
(non-objects contribute none of the keys the code ever reads). -/
def asFields : JsValue → List (String × JsValue)
  | .obj fs => fs
  | _ => []

/- ── String utilities modelling the JavaScript string operations used ── -/

/-- ASCII whitespace as matched by `trim` and the regex class. -/
def isJsWs (c : Char) : Bool :=
  c = ' ' ∨ c = '\t' ∨ c = '\n' ∨ c = '\r' ∨ c = '\x0b' ∨ c = '\x0c'

/-- `String.prototype.trim` (ASCII whitespace; the validators are only ever
exercised on ASCII input in this development). -/
def jsTrim (s : String) : String :=
  String.mk (((s.toList.dropWhile isJsWs).reverse.dropWhile isJsWs).reverse)

/-- `String.prototype.toLowerCase` (ASCII). -/
def toLowerStr (s : String) : String :=
  String.mk (s.toList.map Char.toLower)

/-- `String.prototype.toUpperCase` (ASCII). -/
def toUpperStr (s : String) : String :=
  String.mk (s.toList.map Char.toUpper)

/-- Split on runs of whitespace, as `split` with the whitespace-run regex
does on trimmed input. -/
def splitWsGo : List Char → List Char → List String
  | acc, [] => if acc.isEmpty then [] else [String.mk acc.reverse]
  | acc, c :: rest =>
    if isJsWs c then
      if acc.isEmpty then splitWsGo [] rest
      else String.mk acc.reverse :: splitWsGo [] rest
    else splitWsGo (c :: acc) rest

def splitWs (s : String) : List String :=
  splitWsGo [] s.toList

/-- Split on a separator character, keeping empty pieces (so a trailing
separator yields a final empty piece, as the regexes require). -/
def splitOnCharGo (sep : Char) : List Char → List Char → List (List Char)
  | acc, [] => [acc.reverse]
  | acc, c :: rest =>
    if c = sep then acc.reverse :: splitOnCharGo sep [] rest
    else splitOnCharGo sep (c :: acc) rest

def splitOnChar (sep : Char) (cs : List Char) : List (List Char) :=
  splitOnCharGo sep [] cs

/-- One-or-more-digits parser; returns the rest on success. -/
def parseDigits1 (cs : List Char) : Option (List Char) :=
  let d := cs.takeWhile Char.isDigit
  if d.isEmpty then none else some (cs.drop d.length)

/- ── Validators: shallow embedding of `src/validation.ts` ──
Validators whose source guards with `!x || typeof x !== 'string'` take an
`Option String` (`none` models `undefined`); the others take a `String`,
exactly as their call sites guarantee. -/

/-- The `\x7bvalid, error?\x7d` result every validator returns. -/
structure VResult where
  valid : Bool
  error : Option String
  deriving Repr, DecidableEq

def vOk : VResult := ⟨true, none⟩

def vErr (msg : String) : VResult := ⟨false, some msg⟩

/-- One alternative of the cron field regex:
`\*|[0-9]+(-[0-9]+)?(\/[0-9]+)?`. -/
def cronItemMatch (cs : List Char) : Bool :=
  if cs = ['*'] then true
  else
    match parseDigits1 cs with
    | none => false
    | some r1 =>
      let r2 : Option (List Char) :=
        match r1 with
        | '-' :: rest => parseDigits1 rest
        | r => some r
      match r2 with
      | none => false
      | some r2v =>
        match r2v with
        | '/' :: rest =>
          match parseDigits1 rest with
          | none => false
          | some r3 => r3.isEmpty
        | r => r.isEmpty

/-- The full cron field regex: a nonempty comma-separated list of items. -/
def cronFieldMatch (s : String) : Bool :=
  (splitOnChar ',' s.toList).all cronItemMatch

/-- First field of the split cron expression failing
`part !== '?' && !fieldPattern.test(part)`. -/
def firstBadCronField : List String → Option String
  | [] => none
  | p :: rest =>
    if p ≠ "?" ∧ !(cronFieldMatch p) then some p else firstBadCronField rest

def cronCountError (n : Nat) : String :=
  "Invalid cron expression: expected 5 fields, got " ++ toString n ++
  "\n\nExamples:\n  */5 * * * * - Every 5 minutes\n  0 9 * * * - Every day at 9 AM\n  0 9 * * 1-5 - Every weekday at 9 AM\n\nUse https://crontab.guru to build expressions."

def validateCronExpression (cron : Option String) : VResult :=
  match cron with
  | none => vErr "Cron expression is required"
  | some s =>
    if s = "" then vErr "Cron expression is required"
    else
      let trimmed := jsTrim s
      if trimmed.length = 0 then vErr "Cron expression cannot be empty"
      else
        let parts := splitWs trimmed
        if parts.length < 5 ∨ parts.length > 6 then
          vErr (cronCountError parts.length)
        else
          match firstBadCronField parts with
          | some p =>
            vErr ("Invalid cron field: \"" ++ p ++
              "\"\n\nUse https://crontab.guru to build expressions.")
          | none => vOk

def validateJobName (name : Option String) : VResult :=
  match name with
  | none => vErr "Job name is required"
  | some s =>
    if s = "" then vErr "Job name is required"
    else
      let trimmed := jsTrim s
      if trimmed.length = 0 then vErr "Job name cannot be empty"
      else if trimmed.length > 100 then
        vErr "Job name must be 100 characters or less"
      else if !(trimmed.toList.all (fun c =>
          c.isAlphanum ∨ isJsWs c ∨ c = '-' ∨ c = '_')) then
        vErr "Job name can only contain letters, numbers, spaces, hyphens, and underscores"
      else vOk

def validateMessage (message : Option String) : VResult :=
  match message with
  | none => vErr "Message is required"
  | some s =>
    if s = "" then vErr "Message is required"
    else
      let trimmed := jsTrim s
      if trimmed.length = 0 then vErr "Message cannot be empty"
      else if trimmed.length > 5000 then
        vErr "Message must be 5000 characters or less"
      else vOk

def validChannels : List String :=
  ["whatsapp", "telegram", "slack", "discord", "signal", "imessage",
   "googlechat", "mattermost", "matrix", "nostr", "msteams", "line",
   "zalo", "bluebubbles", "nextcloud-talk"]

def validateChannel (channel : String) : VResult :=
  let trimmed := toLowerStr (jsTrim channel)
  if !(validChannels.contains trimmed) then
    vErr ("Invalid channel: " ++ channel ++ "\n\nValid channels:\n  " ++
      String.intercalate ", " validChannels)
  else vOk

/-- The chat-id regex `^-?\d+$`. -/
def chatIdMatch : List Char → Bool
  | '-' :: rest => !rest.isEmpty && rest.all Char.isDigit
  | cs => !cs.isEmpty && cs.all Char.isDigit

def validateTelegramChatId (chatId : Option String) : VResult :=
  match chatId with
  | none => vErr "Telegram chat ID is required when using Telegram channel"
  | some s =>
    if s = "" then vErr "Telegram chat ID is required when using Telegram channel"
    else if !(chatIdMatch (jsTrim s).toList) then
      vErr "Invalid Telegram chat ID format. Must be a number.\n\nGet your chat ID from @userinfobot on Telegram."
    else vOk

/-- The E.164 regex `^\+[1-9]\d\x7b1,14\x7d$`. -/
def phoneMatch : List Char → Bool
  | '+' :: d :: rest =>
    (d.isDigit && d ≠ '0') && rest.all Char.isDigit &&
      !rest.isEmpty && rest.length ≤ 14
  | _ => false

def validatePhoneNumber (phone : Option String) : VResult :=
  match phone with
  | none => vErr "Phone number is required"
  | some s =>
    if s = "" then vErr "Phone number is required"
    else if !(phoneMatch (jsTrim s).toList) then
      vErr "Invalid phone number format. Must be in E.164 format (e.g., +15555551234)"
    else vOk

def validateAgentId (agentId : Option String) : VResult :=
  match agentId with
  | none => vErr "Agent ID is required"
  | some s =>
    if s = "" then vErr "Agent ID is required"
    else
      let trimmed := jsTrim s
      if trimmed.length = 0 then vErr "Agent ID cannot be empty"
      else if trimmed.length > 50 then
        vErr "Agent ID must be 50 characters or less"
      else vOk

/-- The job-id regex `^\d+-[a-z0-9]+$`. -/
def jobIdMatch (cs : List Char) : Bool :=
  let ds := cs.takeWhile Char.isDigit
  if ds.isEmpty then false
  else
    match cs.drop ds.length with
    | '-' :: rest =>
      !rest.isEmpty && rest.all (fun c => c.isLower ∨ c.isDigit)
    | _ => false

def validateJobId (jobId : Option String) : VResult :=
  match jobId with
  | none => vErr "Job ID is required"
  | some s =>
    if s = "" then vErr "Job ID is required"
    else
      let trimmed := jsTrim s
      if trimmed.length = 0 then vErr "Job ID cannot be empty"
      else if !(jobIdMatch trimmed.toList) then
        vErr "Invalid job ID format. Use \"clawtick list\" to see valid job IDs."
      else vOk

def validIntegrationTypes : List String := ["openclaw", "webhook"]

def validateIntegrationType (type : Option String) : VResult :=
  match type with
  | none => vErr "Integration type is required"
  | some s =>
    if s = "" then vErr "Integration type is required"
    else
      let trimmed := toLowerStr (jsTrim s)
      if !(validIntegrationTypes.contains trimmed) then
        vErr ("Invalid integration type: " ++ s ++ "\n\nValid types:\n  " ++
          String.intercalate ", " validIntegrationTypes)
      else vOk

def validMethods : List String := ["GET", "POST", "PUT", "DELETE"]

def validateWebhookMethod (method : Option String) : VResult :=
  match method with
  | none => vErr "Webhook method is required for webhook integration"
  | some s =>
    if s = "" then vErr "Webhook method is required for webhook integration"
    else
      let upperMethod := toUpperStr (jsTrim s)
      if !(validMethods.contains upperMethod) then
        vErr ("Invalid HTTP method: " ++ s ++ "\n\nValid methods:\n  " ++
          String.intercalate ", " validMethods)
      else vOk

def validateWebhookBody (body : Option String) : VResult :=
  match body with
  | none => vErr "Webhook body must be a string"
  | some s =>
    if s = "" then vErr "Webhook body must be a string"
    else
      let trimmed := jsTrim s
      if trimmed.length = 0 then vErr "Webhook body cannot be empty"
      else if trimmed.length > 10000 then
        vErr "Webhook body must be 10000 characters or less"
      else vOk

/-- Model of the runtime URL constructor restricted to what the validator
observes: whether parsing succeeds and the resulting `protocol` (lowercased
scheme plus a colon).  Parsing succeeds exactly when the input starts with
an ASCII-letter-led scheme token followed by a colon. -/
def urlProtocol (s : String) : Option String :=
  match s.toList with
  | [] => none
  | c :: rest =>
    if c.isAlpha then
      let schemeRest := rest.takeWhile (fun ch =>
        ch.isAlphanum ∨ ch = '+' ∨ ch = '-' ∨ ch = '.')
      match rest.drop schemeRest.length with
      | ':' :: _ =>
        some (String.mk ((c :: schemeRest).map Char.toLower) ++ ":")
      | _ => none
    else none

/- ── JSON parsing: model of `JSON.parse` for `validateWebhookHeaders`
and the webhook-headers payload field ── -/

/-- JSON insignificant whitespace. -/
def jsonWsDrop (cs : List Char) : List Char :=
  cs.dropWhile (fun c => c = ' ' ∨ c = '\t' ∨ c = '\n' ∨ c = '\r')

def hexVal (c : Char) : Option Nat :=
  if c.isDigit then some (c.toNat - '0'.toNat)
  else if 'a' ≤ c ∧ c ≤ 'f' then some (c.toNat - 'a'.toNat + 10)
  else if 'A' ≤ c ∧ c ≤ 'F' then some (c.toNat - 'A'.toNat + 10)
  else none

/-- Decode a `\uXXXX` escape.  Surrogate code units cannot inhabit `Char`;
they are mapped to the replacement character (no theorem below touches
them). -/
def uEscape (a b c d : Char) : Option Char :=
  match hexVal a, hexVal b, hexVal c, hexVal d with
  | some x, some y, some z, some w =>
    let n := ((x * 16 + y) * 16 + z) * 16 + w
    if 0xD800 ≤ n ∧ n ≤ 0xDFFF then some '�' else some (Char.ofNat n)
  | _, _, _, _ => none

/-- JSON string body (after the opening quote): characters until the
closing quote, with the standard escapes; raw control characters are a
parse error. -/
def jsonStrGo : List Char → List Char → Option (String × List Char)
  | _, [] => none
  | acc, c :: rest =>
    if c = '"' then some (String.mk acc.reverse, rest)
    else if c = '\\' then
      match rest with
      | [] => none
      | e :: rest2 =>
        if e = '"' then jsonStrGo ('"' :: acc) rest2
        else if e = '\\' then jsonStrGo ('\\' :: acc) rest2
        else if e = '/' then jsonStrGo ('/' :: acc) rest2
        else if e = 'b' then jsonStrGo ('\x08' :: acc) rest2
        else if e = 'f' then jsonStrGo ('\x0c' :: acc) rest2
        else if e = 'n' then jsonStrGo ('\n' :: acc) rest2
        else if e = 'r' then jsonStrGo ('\r' :: acc) rest2
        else if e = 't' then jsonStrGo ('\t' :: acc) rest2
        else if e = 'u' then
          match rest2 with
          | h1 :: h2 :: h3 :: h4 :: rest3 =>
            match uEscape h1 h2 h3 h4 with
            | some ch => jsonStrGo (ch :: acc) rest3
            | none => none
          | _ => none
        else none
    else if c.toNat < 32 then none
    else jsonStrGo (c :: acc) rest

/-- JSON number token; returns the lexeme. -/
def jsonNumToken (cs : List Char) : Option (String × List Char) :=
  let sign : List Char × List Char :=
    match cs with
    | '-' :: r => (['-'], r)
    | r => ([], r)
  let intPart : Option (List Char × List Char) :=
    match sign.2 with
    | '0' :: r => some (['0'], r)
    | c :: r =>
      if c.isDigit then
        let more := r.takeWhile Char.isDigit
        some (c :: more, r.drop more.length)
      else none
    | [] => none
  match intPart with
  | none => none
  | some (ip, r1) =>
    let frac : Option (List Char × List Char) :=
      match r1 with
      | '.' :: r =>
        let ds := r.takeWhile Char.isDigit
        if ds.isEmpty then none else some ('.' :: ds, r.drop ds.length)
      | r => some ([], r)
    match frac with
    | none => none
    | some (fp, r2) =>
      let expo : Option (List Char × List Char) :=
        match r2 with
        | e :: r =>
          if e = 'e' ∨ e = 'E' then
            let signedRest : List Char × List Char :=
              match r with
              | s :: r2v => if s = '+' ∨ s = '-' then ([e, s], r2v) else ([e], r)
              | [] => ([e], [])
            let ds := signedRest.2.takeWhile Char.isDigit
            if ds.isEmpty then none
            else some (signedRest.1 ++ ds, signedRest.2.drop ds.length)
          else some ([], r2)
        | [] => some ([], [])
      match expo with
      | none => none
      | some (ep, r3) => some (String.mk (sign.1 ++ ip ++ fp ++ ep), r3)

/-- Parser modes: a plain value, the members of an object being read, or
the elements of an array being read. -/
inductive PMode where
  | value
  | members (first : Bool) (acc : List (String × JsValue))
  | elems (first : Bool) (acc : List JsValue)

/-- Recursive-descent JSON parser, fuel-structural so that it reduces in
the kernel.  Duplicate object keys follow `JSON.parse`: the last value
wins, at the first occurrence's position. -/
def parseJ : Nat → PMode → List Char → Option (JsValue × List Char)
  | 0, _, _ => none
  | Nat.succ fuel, PMode.value, cs =>
    match jsonWsDrop cs with
    | [] => none
    | c :: rest =>
      if c = '{' then parseJ fuel (PMode.members true []) rest
      else if c = '[' then parseJ fuel (PMode.elems true []) rest
      else if c = '"' then
        match jsonStrGo [] rest with
        | some (s, r) => some (JsValue.str s, r)
        | none => none
      else if c = 't' then
        match rest with
        | 'r' :: 'u' :: 'e' :: r => some (JsValue.bool true, r)
        | _ => none
      else if c = 'f' then
        match rest with
        | 'a' :: 'l' :: 's' :: 'e' :: r => some (JsValue.bool false, r)
        | _ => none
      else if c = 'n' then
        match rest with
        | 'u' :: 'l' :: 'l' :: r => some (JsValue.null, r)
        | _ => none
      else
        match jsonNumToken (c :: rest) with
        | some (lex, r) => some (JsValue.num lex, r)
        | none => none
  | Nat.succ fuel, PMode.members first acc, cs =>
    match jsonWsDrop cs with
    | [] => none
    | c :: rest =>
      if c = '}' ∧ first ∧ acc.isEmpty then some (JsValue.obj [], rest)
      else
        let afterSep : Option (List Char) :=
          if first then some (c :: rest)
          else if c = '}' then none
          else if c = ',' then some (jsonWsDrop rest) else none
        match afterSep with
        | none => if c = '}' then some (JsValue.obj acc, rest) else none
        | some cs2 =>
          match cs2 with
          | '"' :: kr =>
            match jsonStrGo [] kr with
            | some (k, r1) =>
              match jsonWsDrop r1 with
              | ':' :: r2 =>
                match parseJ fuel PMode.value r2 with
                | some (v, r3) =>
                  let acc2 := setField acc k v
                  match jsonWsDrop r3 with
                  | '}' :: r4 => some (JsValue.obj acc2, r4)
                  | ',' :: r4 => parseJ fuel (PMode.members false acc2) (',' :: r4)
                  | _ => none
                | none => none
              | _ => none
            | none => none
          | _ => none
  | Nat.succ fuel, PMode.elems first acc, cs =>
    match jsonWsDrop cs with
    | [] => none
    | c :: rest =>
      if c = ']' ∧ first ∧ acc.isEmpty then some (JsValue.arr [], rest)
      else
        let cs2 : Option (List Char) :=
          if first then some (c :: rest)
          else if c = ',' then some rest else none
        match cs2 with
        | none => none
        | some csv =>
          match parseJ fuel PMode.value csv with
          | some (v, r1) =>
            let acc2 := acc ++ [v]
            match jsonWsDrop r1 with
            | ']' :: r2 => some (JsValue.arr acc2, r2)
            | ',' :: r2 => parseJ fuel (PMode.elems false acc2) (',' :: r2)
            | _ => none
          | none => none

/-- `JSON.parse`: parse one value and require only whitespace after it. -/
def jsonParse (s : String) : Option JsValue :=
  match parseJ (s.length * 2 + 8) PMode.value s.toList with
  | some (v, rest) => if (jsonWsDrop rest).isEmpty then some v else none
  | none => none

/-- First object entry whose value is not a string, in entry order. -/
def firstNonStringHeader : List (String × JsValue) → Option String
  | [] => none
  | (_, JsValue.str _) :: rest => firstNonStringHeader rest
  | (k, _) :: _ => some k

def validateWebhookHeaders (headers : Option String) : VResult :=
  match headers with
  | none => vErr "Webhook headers must be a JSON string"
  | some s =>
    if s = "" then vErr "Webhook headers must be a JSON string"
    else
      let trimmed := jsTrim s
      if trimmed.length = 0 then vErr "Webhook headers cannot be empty"
      else
        match jsonParse trimmed with
        | none => vErr "Invalid JSON format for webhook headers. Example: \x7b\"Authorization\": \"Bearer token\"\x7d"
        | some parsed =>
          match parsed with
          | JsValue.obj fields =>
            match firstNonStringHeader fields with
            | some k =>
              vErr ("Invalid header value for \"" ++ k ++ "\": must be a string")
            | none => vOk
          | JsValue.arr _ =>
            vErr "Webhook headers must be a JSON object (e.g., \x7b\"Authorization\": \"Bearer token\"\x7d)"
          | JsValue.null =>
            -- typeof null is object and null is not an array, so the code
            -- reaches Object.entries(null), which throws and lands in the
            -- surrounding catch.
            vErr "Invalid JSON format for webhook headers. Example: \x7b\"Authorization\": \"Bearer token\"\x7d"
          | _ =>
            vErr "Webhook headers must be a JSON object (e.g., \x7b\"Authorization\": \"Bearer token\"\x7d)"

def validateWebhookUrl (url : Option String) : VResult :=
  match url with
  | none => vErr "Webhook URL is required for webhook integration"
  | some s =>
    if s = "" then vErr "Webhook URL is required for webhook integration"
    else
      let trimmed := jsTrim s
      if trimmed.length = 0 then vErr "Webhook URL cannot be empty"
      else
        match urlProtocol trimmed with
        | none => vErr "Invalid webhook URL format. Must be a valid HTTP/HTTPS URL."
        | some p =>
          if !(["http:", "https:"].contains p) then
            vErr "Webhook URL must use HTTP or HTTPS protocol"
          else vOk

/- ── Config store: shallow embedding of `loadConfig` / `saveConfig`
(`src/api-client.ts`).  The config file on disk is modelled as a
`FileState`; serialisation is modelled at the JSON-value level, with
`corrupt` covering contents `JSON.parse` rejects. -/

def DEFAULT_API_URL : String := "https://api.clawtick.com"

inductive FileState where
  | absent
  | corrupt
  | stored (v : JsValue)

/-- `loadConfig`: default config when the file is missing or unparseable,
otherwise the parsed contents (whatever shape they have). -/
def loadConfig : FileState → JsValue
  | .absent => .obj [("apiUrl", .str DEFAULT_API_URL), ("apiKey", .str "")]
  | .corrupt => .obj [("apiUrl", .str DEFAULT_API_URL), ("apiKey", .str "")]
  | .stored v => v

/-- `saveConfig`: merge the partial config over the loaded one by object
spread and write the result. -/
def saveConfig (config : List (String × JsValue)) (file : FileState) : FileState :=
  let current := loadConfig file
  FileState.stored (.obj (spreadMerge (asFields current) config))

/- ── ApiClient (`src/api-client.ts`) ── -/

/-- What `ApiClient.request` observes of an HTTP response: the status and
the `error` member of the parsed body.  `errorField = none` covers both a
body without that member and an unparseable body (the code substitutes an
empty object for the latter). -/
structure ApiResponse where
  status : Nat
  errorField : Option String

/-- `Response.ok`: status in the range 200 to 299 inclusive. -/
def resOk (status : Nat) : Bool :=
  200 ≤ status ∧ status ≤ 299

/-- The `apiKey` the `ApiClient` constructor captures: the loaded config's
`apiKey` member, nothing else. -/
def apiClientKey (file : FileState) : Option JsValue :=
  jsGet (loadConfig file) "apiKey"

/-- `ApiClient.request`: throw when unauthenticated, return the parsed
body on 2xx, otherwise throw `data.error || 'API error: <status>'`. -/
def request (apiKey : Option JsValue) (res : ApiResponse) :
    Except String ApiResponse :=
  if !(jsTruthyO apiKey) then
    Except.error "Not authenticated. Run: clawtick login"
  else if resOk res.status then
    Except.ok res
  else
    Except.error (jsOrStr res.errorField ("API error: " ++ toString res.status))

/- ── login / logout actions (`src/cli.ts`) ── -/

/-- The `login` action's effect on the config file: `options.key ||
process.env.CLAWPULSE_API_KEY`; when that is falsy, print help and return
without saving; otherwise save `\x7bapiKey\x7d`, plus `apiUrl` when
`--api-url` was given. -/
def loginAction (optKey optApiUrl envKey : Option String)
    (file : FileState) : FileState :=
  match jsOrOS optKey envKey with
  | none => file
  | some k =>
    if k = "" then file
    else
      let cfg :=
        if truthyOS optApiUrl then
          [("apiKey", JsValue.str k),
           ("apiUrl", JsValue.str (optApiUrl.getD ""))]
        else [("apiKey", JsValue.str k)]
      saveConfig cfg file

/-- The `logout` action: `saveConfig(\x7bapiKey: ""\x7d)`. -/
def logoutAction (file : FileState) : FileState :=
  saveConfig [("apiKey", JsValue.str "")] file

/- ── jobs trigger --sync poll loop (`src/cli.ts`, lines 648-716) ── -/

/-- The slice of a job record the poll loop reads.  `lastRunAt = none`
models an absent (or otherwise falsy) `lastRunAt`; a present value is the
timestamp in milliseconds. -/
structure Job where
  id : String
  lastRunAt : Option Int
  failCount : Nat

inductive RunStatus where
  | success
  | failed
  deriving Repr, DecidableEq

inductive TriggerReport where
  | success
  | failed
  | timeout
  deriving Repr, DecidableEq

/-- One poll observation: the job found in the fetched list (if any) and
`Date.now()` at that poll. -/
abbrev PollObs := Option Job × Int

def maxAttempts : Nat := 150

def pollDelayMs : Nat := 2000

/-- One iteration's check: the run is attributed to the trigger iff the
job was found, has a `lastRunAt`, and `now - lastRunAt < 30000`; the
reported status is `failed` iff `failCount > 0`. -/
def pollStep (job : Option Job) (now : Int) : Option RunStatus :=
  match job with
  | none => none
  | some j =>
    match j.lastRunAt with
    | none => none
    | some lastRunTime =>
      if now - lastRunTime < 30000 then
        some (if j.failCount > 0 then RunStatus.failed else RunStatus.success)
      else none

/-- The poll loop: consume observations while attempts remain and no run
has been attributed.  Returns the attributed status (if any) and the
number of iterations executed. -/
def pollLoop : List PollObs → Nat → Option RunStatus × Nat
  | _, 0 => (none, 0)
  | [], _ => (none, 0)
  | r :: rs, Nat.succ n =>
    match pollStep r.1 r.2 with
    | some s => (some s, 1)
    | none =>
      let rec0 := pollLoop rs n
      (rec0.1, rec0.2 + 1)

/-- The final report of `jobs trigger --sync`: success/failure when a run
was attributed within `maxAttempts` polls, otherwise the timeout warning. -/
def syncTriggerReport (obs : List PollObs) : TriggerReport :=
  match (pollLoop obs maxAttempts).1 with
  | some RunStatus.success => TriggerReport.success
  | some RunStatus.failed => TriggerReport.failed
  | none => TriggerReport.timeout

/- ── jobs create / jobs update actions (`src/cli.ts`) ── -/

/-- The options `jobs create` receives (commander guarantees the two
required options are present; the rest are `undefined`-able). -/
structure CreateOpts where
  cron : String
  message : String
  name : Option String
  integration : Option String
  agent : Option String
  channel : Option String
  deliver : Bool
  replyTo : Option String
  webhookUrl : Option String
  webhookMethod : Option String
  webhookHeaders : Option String
  webhookBody : Option String
  timezone : Option String

/-- `options.integration?.toLowerCase() || "openclaw"`. -/
def effectiveIntegration (o : CreateOpts) : String :=
  match o.integration with
  | none => "openclaw"
  | some s => if toLowerStr s = "" then "openclaw" else toLowerStr s

/-- The `jobData` payload `jobs create` sends. -/
structure JobPayload where
  name : Option String
  cron : String
  message : String
  integrationType : String
  source : String
  timezone : Option String
  agent : Option String
  channel : Option String
  deliver : Option Bool
  replyTo : Option String
  webhookUrl : Option String
  webhookMethod : Option String
  webhookHeaders : Option JsValue
  webhookBody : Option String

/-- Outcome of `jobs create` up to the network boundary: either the
process exits on a validation failure (printing the message, exit code 1)
before any API call, or `api.createJob` is issued with the payload. -/
inductive CreateOutcome where
  | validationExit (printed : String) (code : Nat)
  | api (payload : JobPayload)

/-- The message printed for a failed check: `❌ ` then the check's error
(template interpolation of `undefined` would print "undefined"). -/
def printedCheckError (r : VResult) : String :=
  "❌ " ++ r.error.getD "undefined"

def createBasePayload (o : CreateOpts) : JobPayload :=
  { name := o.name
    cron := o.cron
    message := o.message
    integrationType := effectiveIntegration o
    source := "cli"
    timezone := o.timezone
    agent := none, channel := none, deliver := none, replyTo := none
    webhookUrl := none, webhookMethod := none
    webhookHeaders := none, webhookBody := none }

/-- The webhook-integration `jobData` (method uppercased, headers parsed
from the validated JSON string). -/
def createWebhookPayload (o : CreateOpts) : JobPayload :=
  { createBasePayload o with
    webhookUrl := o.webhookUrl
    webhookMethod := o.webhookMethod.map toUpperStr
    webhookHeaders :=
      match o.webhookHeaders with
      | some h => if h ≠ "" then jsonParse h else none
      | none => none
    webhookBody := if truthyOS o.webhookBody then o.webhookBody else none }

/-- The OpenClaw-integration `jobData`. -/
def createOpenclawPayload (o : CreateOpts) : JobPayload :=
  { createBasePayload o with
    agent := o.agent
    channel := o.channel
    deliver := some o.deliver
    replyTo := o.replyTo }

/-- The `jobs create` action.  Guarded validations of the form
`if (opt) \x7b const c = validate(opt); if (!c.valid) exit \x7d` are
written as a single conditional whose condition is the conjunction. -/
def jobsCreate (o : CreateOpts) : CreateOutcome :=
  if truthyOS o.integration ∧ (validateIntegrationType o.integration).valid = false then
    .validationExit (printedCheckError (validateIntegrationType o.integration)) 1
  else if (validateCronExpression (some o.cron)).valid = false then
    .validationExit (printedCheckError (validateCronExpression (some o.cron))) 1
  else if (validateMessage (some o.message)).valid = false then
    .validationExit (printedCheckError (validateMessage (some o.message))) 1
  else if truthyOS o.name ∧ (validateJobName o.name).valid = false then
    .validationExit (printedCheckError (validateJobName o.name)) 1
  else if effectiveIntegration o = "webhook" then
    if truthyOS o.webhookUrl = false then
      .validationExit "❌ --webhook-url is required for webhook integration" 1
    else if truthyOS o.webhookMethod = false then
      .validationExit "❌ --webhook-method is required for webhook integration" 1
    else if (validateWebhookUrl o.webhookUrl).valid = false then
      .validationExit (printedCheckError (validateWebhookUrl o.webhookUrl)) 1
    else if (validateWebhookMethod o.webhookMethod).valid = false then
      .validationExit (printedCheckError (validateWebhookMethod o.webhookMethod)) 1
    else if truthyOS o.webhookHeaders ∧ (validateWebhookHeaders o.webhookHeaders).valid = false then
      .validationExit (printedCheckError (validateWebhookHeaders o.webhookHeaders)) 1
    else if truthyOS o.webhookBody ∧ (validateWebhookBody o.webhookBody).valid = false then
      .validationExit (printedCheckError (validateWebhookBody o.webhookBody)) 1
    else
      .api (createWebhookPayload o)
  else if truthyOS o.agent ∧ (validateAgentId o.agent).valid = false then
    .validationExit (printedCheckError (validateAgentId o.agent)) 1
  else
    .api (createOpenclawPayload o)

/-- The options `jobs update` receives (all optional; `deliver` is the
combined `--deliver`/`--no-deliver` pair, `undefined` when neither flag is
given; `enable`/`disable` are plain flags). -/
structure UpdateOpts where
  name : Option String
  cron : Option String
  message : Option String
  integration : Option String
  agent : Option String
  channel : Option String
  deliver : Option Bool
  replyTo : Option String
  webhookUrl : Option String
  webhookMethod : Option String
  webhookHeaders : Option String
  webhookBody : Option String
  timezone : Option String
  enable : Bool
  disable : Bool

inductive UpdateOutcome where
  | validationExit (printed : String) (code : Nat)
  | noUpdates
  | api (jobId : String) (updates : List (String × JsValue))

/-- `if (flag) updates[k] = v`. -/
def setWhen (b : Bool) (u : List (String × JsValue)) (k : String)
    (v : JsValue) : List (String × JsValue) :=
  if b then setField u k v else u

/-- `if (x !== undefined) updates[k] = x`. -/
def setFromOpt (u : List (String × JsValue)) (k : String)
    (v : Option JsValue) : List (String × JsValue) :=
  match v with
  | some w => setField u k w
  | none => u

/-- `JSON.parse(options.webhookHeaders)` as stored by `jobs update` (the
string was validated, so the parse succeeds; `null` is an unreachable
placeholder for the impossible failure). -/
def parsedHeadersValue (h : Option String) : JsValue :=
  (jsonParse (h.getD "")).getD JsValue.null

/-- Assignment to the `updates` object, in source order, with each guarded
validation folded into its conditional as in `jobsCreate`.  Returns the
accumulated object or the first validation failure. -/
def buildUpdates (o : UpdateOpts) : Except String (List (String × JsValue)) :=
  let u : List (String × JsValue) := []
  let u := setWhen (truthyOS o.name) u "name" (.str (o.name.getD ""))
  if truthyOS o.cron ∧ (validateCronExpression o.cron).valid = false then
    Except.error (printedCheckError (validateCronExpression o.cron))
  else
  let u := setWhen (truthyOS o.cron) u "cron" (.str (o.cron.getD ""))
  if truthyOS o.message ∧ (validateMessage o.message).valid = false then
    Except.error (printedCheckError (validateMessage o.message))
  else
  let u := setWhen (truthyOS o.message) u "message" (.str (o.message.getD ""))
  let u := setWhen (truthyOS o.timezone) u "timezone" (.str (o.timezone.getD ""))
  let u := setWhen o.enable u "enabled" (.bool true)
  let u := setWhen o.disable u "enabled" (.bool false)
  if truthyOS o.integration ∧ (validateIntegrationType o.integration).valid = false then
    Except.error (printedCheckError (validateIntegrationType o.integration))
  else
  let u := setWhen (truthyOS o.integration) u "integrationType"
      (.str (toLowerStr (o.integration.getD "")))
  let u := setFromOpt u "agent" (o.agent.map JsValue.str)
  let u := setFromOpt u "channel" (o.channel.map JsValue.str)
  let u := setFromOpt u "deliver" (o.deliver.map JsValue.bool)
  let u := setFromOpt u "replyTo" (o.replyTo.map JsValue.str)
  if truthyOS o.webhookUrl ∧ (validateWebhookUrl o.webhookUrl).valid = false then
    Except.error (printedCheckError (validateWebhookUrl o.webhookUrl))
  else
  let u := setWhen (truthyOS o.webhookUrl) u "webhookUrl" (.str (o.webhookUrl.getD ""))
  if truthyOS o.webhookMethod ∧ (validateWebhookMethod o.webhookMethod).valid = false then
    Except.error (printedCheckError (validateWebhookMethod o.webhookMethod))
  else
  let u := setWhen (truthyOS o.webhookMethod) u "webhookMethod"
      (.str (toUpperStr (o.webhookMethod.getD "")))
  if truthyOS o.webhookHeaders ∧ (validateWebhookHeaders o.webhookHeaders).valid = false then
    Except.error (printedCheckError (validateWebhookHeaders o.webhookHeaders))
  else
  let u := setWhen (truthyOS o.webhookHeaders) u "webhookHeaders"
      (parsedHeadersValue o.webhookHeaders)
  let u := setFromOpt u "webhookBody" (o.webhookBody.map JsValue.str)
  Except.ok u

/-- The `jobs update` action up to the network boundary: a validation
failure exits with code 1; an empty `updates` object returns without an
API call; otherwise `api.updateJob(jobId, updates)` is issued. -/
def jobsUpdate (jobId : String) (o : UpdateOpts) : UpdateOutcome :=
  match buildUpdates o with
  | .error msg => .validationExit msg 1
  | .ok u =>
    if u.length = 0 then .noUpdates
    else .api jobId u

/- ── doctor / status actions (`src/cli.ts`) ── -/

inductive Endpoint where
  | getStatus
  | getGateway
  | testGateway
  deriving Repr, DecidableEq

/-- The remote results a `doctor` run can consume: each API call's outcome
(`Except` models a thrown error).  `gatewayRes` carries the gateway
config's `url` member; `testRes` carries `testGateway().success`. -/
structure DoctorEnv where
  file : FileState
  statusRes : Except String Unit
  gatewayRes : Except String (Option JsValue)
  testRes : Except String Bool
  statusRes2 : Except String Unit

def isOkE {α : Type} : Except String α → Bool
  | .ok _ => true
  | .error _ => false

/-- The `doctor` action: the trace of API calls it makes, tagged with
whether each call threw, and the process exit code.  Gateway, gateway
test and quota failures are caught and only warned about. -/
def doctorRun (env : DoctorEnv) : List (Endpoint × Bool) × Nat :=
  if !(jsTruthyO (jsGet (loadConfig env.file) "apiKey")) then
    ([], 1)
  else
    match env.statusRes with
    | .error _ => ([(Endpoint.getStatus, false)], 1)
    | .ok _ =>
      let gwCalls : List (Endpoint × Bool) :=
        match env.gatewayRes with
        | .error _ => [(Endpoint.getGateway, false)]
        | .ok url =>
          if jsTruthyO url then
            [(Endpoint.getGateway, true), (Endpoint.testGateway, isOkE env.testRes)]
          else
            [(Endpoint.getGateway, true)]
      ((Endpoint.getStatus, true) :: gwCalls ++
        [(Endpoint.getStatus, isOkE env.statusRes2)], 0)

/-- The `status` action: one `getStatus` call; a thrown error exits 1. -/
def statusRun (res : Except String Unit) : List (Endpoint × Bool) × Nat :=
  match res with
  | .ok _ => ([(Endpoint.getStatus, true)], 0)
  | .error _ => ([(Endpoint.getStatus, false)], 1)

/-- No endpoint is called again after a call to it has thrown. -/
def NoRetry (tr : List (Endpoint × Bool)) : Prop :=
  List.Pairwise (fun a b => a.2 = false → b.1 ≠ a.1) tr

/-!  ## Theorems  -/

/- ── Assoc-list lemmas about the JavaScript object model ── -/

theorem getField_map_set_self (t : List (String × JsValue)) (k : String)
    (v : JsValue) (h : t.any (fun p => p.1 = k) = true) :
    getField (t.map (fun p => if p.1 = k then (k, v) else p)) k = some v := by
  induction t with
  | nil => simp at h
  | cons q r ih =>
    by_cases hq : q.1 = k
    · simp [getField, hq]
    · have hr : r.any (fun p => p.1 = k) = true := by
        simpa [List.any_cons, hq] using h
      simpa [getField, hq] using ih hr

theorem getField_map_set_ne (t : List (String × JsValue)) (k1 k2 : String)
    (v : JsValue) (h : k1 ≠ k2) :
    getField (t.map (fun p => if p.1 = k1 then (k1, v) else p)) k2
      = getField t k2 := by
  induction t with
  | nil => rfl
  | cons q r ih =>
    by_cases hq : q.1 = k1
    · have hq2 : ¬ q.1 = k2 := fun hc => h (hq ▸ hc)
      simpa [getField, hq, h, hq2] using ih
    · by_cases hq2 : q.1 = k2
      · simp [getField, hq, hq2, Ne.symm h]
      · simpa [getField, hq, hq2] using ih

theorem getField_append_single_self (t : List (String × JsValue)) (k : String)
    (v : JsValue) (h : t.any (fun p => p.1 = k) = false) :
    getField (t ++ [(k, v)]) k = some v := by
  induction t with
  | nil => simp [getField]
  | cons q r ih =>
    have hq : ¬ q.1 = k := by
      intro hc
      simp [List.any_cons, hc] at h
    have hr : r.any (fun p => p.1 = k) = false := by
      simpa [List.any_cons, hq] using h
    simpa [getField, hq] using ih hr

theorem getField_append_single_ne (t : List (String × JsValue)) (k1 k2 : String)
    (v : JsValue) (h : k1 ≠ k2) :
    getField (t ++ [(k1, v)]) k2 = getField t k2 := by
  induction t with
  | nil => simp [getField, h]
  | cons q r ih =>
    by_cases hq : q.1 = k2
    · simp [getField, hq]
    · simpa [getField, hq] using ih

theorem getField_setField_self (fs : List (String × JsValue)) (k : String)
    (v : JsValue) : getField (setField fs k v) k = some v := by
  by_cases hany : fs.any (fun p => p.1 = k) = true
  · simpa [setField, hany] using getField_map_set_self fs k v hany
  · have hf : fs.any (fun p => p.1 = k) = false := Bool.eq_false_iff.mpr hany
    simpa [setField, hf] using getField_append_single_self fs k v hf

theorem getField_setField_ne (fs : List (String × JsValue)) (k1 k2 : String)
    (v : JsValue) (h : k1 ≠ k2) :
    getField (setField fs k1 v) k2 = getField fs k2 := by
  by_cases hany : fs.any (fun p => p.1 = k1) = true
  · simpa [setField, hany] using getField_map_set_ne fs k1 k2 v h
  · have hf : fs.any (fun p => p.1 = k1) = false := Bool.eq_false_iff.mpr hany
    simpa [setField, hf] using getField_append_single_ne fs k1 k2 v h

theorem getField_spreadMerge_notMem (upd base : List (String × JsValue))
    (k : String) (h : ∀ p ∈ upd, p.1 ≠ k) :
    getField (spreadMerge base upd) k = getField base k := by
  induction upd generalizing base with
  | nil => rfl
  | cons p t ih =>
    have hp : p.1 ≠ k := h p (List.mem_cons_self p t)
    have ht : ∀ q ∈ t, q.1 ≠ k := fun q hq => h q (List.mem_cons_of_mem p hq)
    calc getField (spreadMerge base (p :: t)) k
        = getField (spreadMerge (setField base p.1 p.2) t) k := rfl
      _ = getField (setField base p.1 p.2) k := ih (setField base p.1 p.2) ht
      _ = getField base k := getField_setField_ne base p.1 k p.2 hp

theorem spreadMerge_pair (base : List (String × JsValue))
    (k1 k2 : String) (v1 v2 : JsValue) :
    spreadMerge base [(k1, v1), (k2, v2)]
      = setField (setField base k1 v1) k2 v2 := rfl

/-- C10: `loadConfig` is total by construction, and on a missing or
unparseable config file it returns the default config
`\x7bapiUrl: "https://api.clawtick.com", apiKey: ""\x7d` rather than
propagating an error. -/
theorem c10_loadConfig_total_default :
    loadConfig FileState.absent
        = JsValue.obj [("apiUrl", JsValue.str "https://api.clawtick.com"),
                       ("apiKey", JsValue.str "")]
    ∧ loadConfig FileState.corrupt
        = JsValue.obj [("apiUrl", JsValue.str "https://api.clawtick.com"),
                       ("apiKey", JsValue.str "")] :=
  ⟨rfl, rfl⟩

/-- C5: saving `\x7bapiUrl, apiKey\x7d` and loading again returns exactly
the saved values, whatever the config file held before. -/
theorem c5_config_round_trip (apiUrl apiKey : String) (file : FileState) :
    jsGet (loadConfig (saveConfig
        [("apiUrl", JsValue.str apiUrl), ("apiKey", JsValue.str apiKey)] file))
      "apiUrl" = some (JsValue.str apiUrl)
    ∧ jsGet (loadConfig (saveConfig
        [("apiUrl", JsValue.str apiUrl), ("apiKey", JsValue.str apiKey)] file))
      "apiKey" = some (JsValue.str apiKey) := by
  have hs : saveConfig
      [("apiUrl", JsValue.str apiUrl), ("apiKey", JsValue.str apiKey)] file
      = FileState.stored (JsValue.obj
          (setField (setField (asFields (loadConfig file)) "apiUrl"
            (JsValue.str apiUrl)) "apiKey" (JsValue.str apiKey))) := rfl
  rw [hs]
  constructor
  · show getField (setField (setField (asFields (loadConfig file)) "apiUrl"
        (JsValue.str apiUrl)) "apiKey" (JsValue.str apiKey)) "apiUrl"
        = some (JsValue.str apiUrl)
    rw [getField_setField_ne _ _ _ _ (by decide)]
    exact getField_setField_self _ _ _
  · show getField (setField (setField (asFields (loadConfig file)) "apiUrl"
        (JsValue.str apiUrl)) "apiKey" (JsValue.str apiKey)) "apiKey"
        = some (JsValue.str apiKey)
    exact getField_setField_self _ _ _

/-- C9: `saveConfig` with a partial config is a frame: every stored field
whose key is absent from the argument is unchanged, and `logout`
(`saveConfig(\x7bapiKey: ""\x7d)`) clears `apiKey` while leaving `apiUrl`
as it was. -/
theorem c9_saveConfig_frame :
    (∀ (fields updates : List (String × JsValue)) (k : String),
      (∀ p ∈ updates, p.1 ≠ k) →
      jsGet (loadConfig (saveConfig updates (FileState.stored (JsValue.obj fields)))) k
        = getField fields k)
    ∧ (∀ fields : List (String × JsValue),
        jsGet (loadConfig (logoutAction (FileState.stored (JsValue.obj fields)))) "apiKey"
          = some (JsValue.str "")
        ∧ jsGet (loadConfig (logoutAction (FileState.stored (JsValue.obj fields)))) "apiUrl"
          = getField fields "apiUrl") := by
  constructor
  · intro fields updates k h
    show getField (spreadMerge (asFields (JsValue.obj fields)) updates) k
        = getField fields k
    rw [getField_spreadMerge_notMem updates _ k h]
    rfl
  · intro fields
    constructor
    · show getField (spreadMerge (asFields (JsValue.obj fields))
          [("apiKey", JsValue.str "")]) "apiKey" = some (JsValue.str "")
      show getField (setField fields "apiKey" (JsValue.str "")) "apiKey"
          = some (JsValue.str "")
      exact getField_setField_self _ _ _
    · show getField (setField fields "apiKey" (JsValue.str "")) "apiUrl"
          = getField fields "apiUrl"
      exact getField_setField_ne _ _ _ _ (by decide)

/-- Witness for C9 at a concrete store: a `logout` leaves an unrelated
`extra` field untouched. -/
theorem c9_saveConfig_frame_witness :
    jsGet (loadConfig (saveConfig [("apiKey", JsValue.str "")]
        (FileState.stored (JsValue.obj
          [("apiUrl", JsValue.str "https://api.clawtick.com"),
           ("apiKey", JsValue.str "cp_k"),
           ("extra", JsValue.bool true)])))) "extra"
      = some (JsValue.bool true) := by
  have h := c9_saveConfig_frame.1
    [("apiUrl", JsValue.str "https://api.clawtick.com"),
     ("apiKey", JsValue.str "cp_k"),
     ("extra", JsValue.bool true)]
    [("apiKey", JsValue.str "")] "extra" (by simp)
  rw [h]
  rfl

/-- C3: `ApiClient.request`, once authenticated, surfaces a non-2xx
response as a thrown message equal to the body's non-empty `error` field,
falling back to `API error: <status>` when that field is absent or empty,
and returns the parsed body without throwing on 2xx. -/
theorem c3_request_error_surface (key : Option JsValue) (res : ApiResponse)
    (hauth : jsTruthyO key = true) :
    (resOk res.status = false →
      ((∀ e, res.errorField = some e → e ≠ "" →
          request key res = Except.error e)
        ∧ ((res.errorField = none ∨ res.errorField = some "") →
            request key res = Except.error ("API error: " ++ toString res.status))))
    ∧ (resOk res.status = true → request key res = Except.ok res) := by
  constructor
  · intro hok
    constructor
    · intro e he hne
      simp [request, hauth, hok, jsOrStr, he, hne]
    · intro hcase
      rcases hcase with h | h <;> simp [request, hauth, hok, jsOrStr, h]
  · intro hok
    simp [request, hauth, hok]

/-- Witness for C3: a 500 with body `\x7berror: "server exploded"\x7d`
throws exactly that message. -/
theorem c3_request_error_surface_witness :
    request (some (JsValue.str "cp_key")) ⟨500, some "server exploded"⟩
      = Except.error "server exploded" :=
  ((c3_request_error_surface (some (JsValue.str "cp_key"))
      ⟨500, some "server exploded"⟩ (by decide)).1 (by decide)).1
    "server exploded" rfl (by decide)

/- ── C7: the environment-variable fallback ── -/

/-- A config file that stores no `apiKey` member at all. -/
def noKeyFile : FileState :=
  FileState.stored (JsValue.obj [("apiUrl", JsValue.str "https://api.clawtick.com")])

/-- Definition following the claim's words, NOT the source (for comparison
with the code): the bearer key C7 says a command invocation uses — the
stored key when truthy, otherwise the `CLAWPULSE_API_KEY` value. -/
def claimedBearerKey (file : FileState) (envKey : Option String) : Option JsValue :=
  if jsTruthyO (jsGet (loadConfig file) "apiKey") then
    jsGet (loadConfig file) "apiKey"
  else
    envKey.map JsValue.str

/-- Counterexample to C7: with no stored `apiKey` and
`CLAWPULSE_API_KEY=cp_env_key` set, the claim says the client is
authenticated with the environment value, but `ApiClient` reads only the
config file, so its first request throws the unauthenticated error. -/
theorem c7_counterexample :
    claimedBearerKey noKeyFile (some "cp_env_key")
        = some (JsValue.str "cp_env_key")
    ∧ apiClientKey noKeyFile = none
    ∧ request (apiClientKey noKeyFile) ⟨200, none⟩
        = Except.error "Not authenticated. Run: clawtick login" :=
  ⟨rfl, rfl, rfl⟩

/-- C7 amended: the environment variable is consulted only by the `login`
action, as the default for `--key`; after `login` with no `--key` and a
nonempty `CLAWPULSE_API_KEY`, the stored key — and hence the key the
`ApiClient` constructor picks up — is the environment value. -/
theorem c7_amended_login_env_fallback (e : String) (file : FileState)
    (optApiUrl : Option String) (he : e ≠ "") :
    apiClientKey (loginAction none optApiUrl (some e) file)
        = some (JsValue.str e)
    ∧ jsTruthyO (apiClientKey (loginAction none optApiUrl (some e) file))
        = true := by
  have hstep : loginAction none optApiUrl (some e) file
      = saveConfig (if truthyOS optApiUrl then
          [("apiKey", JsValue.str e),
           ("apiUrl", JsValue.str (optApiUrl.getD ""))]
        else [("apiKey", JsValue.str e)]) file := by
    simp [loginAction, jsOrOS, truthyOS, he]
  have hkey : apiClientKey (loginAction none optApiUrl (some e) file)
      = some (JsValue.str e) := by
    rw [hstep]
    by_cases hu : truthyOS optApiUrl
    · simp only [hu, if_pos]
      show getField (spreadMerge (asFields (loadConfig file))
        [("apiKey", JsValue.str e),
         ("apiUrl", JsValue.str (optApiUrl.getD ""))]) "apiKey"
        = some (JsValue.str e)
      rw [spreadMerge_pair, getField_setField_ne _ _ _ _ (by decide)]
      exact getField_setField_self _ _ _
    · simp only [hu, if_neg, Bool.not_eq_true]
      show getField (spreadMerge (asFields (loadConfig file))
        [("apiKey", JsValue.str e)]) "apiKey" = some (JsValue.str e)
      exact getField_setField_self _ _ _
  refine ⟨hkey, ?_⟩
  rw [hkey]
  simpa [jsTruthyO, jsTruthy] using he

/-- Witness for the amended C7 at a concrete key and empty store. -/
theorem c7_amended_login_env_fallback_witness :
    apiClientKey (loginAction none none (some "cp_env_key") FileState.absent)
      = some (JsValue.str "cp_env_key") :=
  (c7_amended_login_env_fallback "cp_env_key" FileState.absent none
    (by decide)).1

/- ── C1 / C2: the `jobs trigger --sync` poll loop ── -/

theorem pollLoop_none_of_all (obs : List PollObs) (n : Nat)
    (h : ∀ x ∈ obs, pollStep x.1 x.2 = none) : (pollLoop obs n).1 = none := by
  induction obs generalizing n with
  | nil => cases n <;> rfl
  | cons r rs ih =>
    cases n with
    | zero => rfl
    | succ m =>
      have hr := h r (List.mem_cons_self r rs)
      have hrs : ∀ x ∈ rs, pollStep x.1 x.2 = none :=
        fun x hx => h x (List.mem_cons_of_mem r hx)
      simpa [pollLoop, hr] using ih m hrs

theorem pollLoop_count_le (obs : List PollObs) (n : Nat) :
    (pollLoop obs n).2 ≤ n := by
  induction obs generalizing n with
  | nil => cases n <;> simp [pollLoop]
  | cons r rs ih =>
    cases n with
    | zero => simp [pollLoop]
    | succ m =>
      cases hstep : pollStep r.1 r.2 with
      | some s => simp [pollLoop, hstep]
      | none =>
        have := ih m
        simp only [pollLoop, hstep]
        omega

/-- C1: in each poll iteration the run is attributed to the trigger iff
the fetched job exists, has a `lastRunAt`, and `now - lastRunAt < 30000`;
an attributed run stops the loop and reports `failed` exactly when
`failCount` is nonzero; if no iteration attributes a run the command
reports the timeout. -/
theorem c1_sync_trigger_attribution :
    (∀ (job : Option Job) (now : Int),
        (pollStep job now).isSome = true ↔
          ∃ j t, job = some j ∧ j.lastRunAt = some t ∧ now - t < 30000)
    ∧ (∀ (j : Job) (now t : Int), j.lastRunAt = some t → now - t < 30000 →
        pollStep (some j) now
          = some (if j.failCount > 0 then RunStatus.failed else RunStatus.success))
    ∧ (∀ (r : PollObs) (rs : List PollObs) (n : Nat) (s : RunStatus),
        pollStep r.1 r.2 = some s → pollLoop (r :: rs) (n + 1) = (some s, 1))
    ∧ (∀ obs : List PollObs, (∀ x ∈ obs, pollStep x.1 x.2 = none) →
        syncTriggerReport obs = TriggerReport.timeout)
    ∧ (∀ obs : List PollObs,
        (pollLoop obs maxAttempts).1 = some RunStatus.failed →
          syncTriggerReport obs = TriggerReport.failed)
    ∧ (∀ obs : List PollObs,
        (pollLoop obs maxAttempts).1 = some RunStatus.success →
          syncTriggerReport obs = TriggerReport.success) := by
  refine ⟨?_, ?_, ?_, ?_, ?_, ?_⟩
  · intro job now
    cases job with
    | none => simp [pollStep]
    | some j =>
      cases hl : j.lastRunAt with
      | none => simp [pollStep, hl]
      | some t =>
        by_cases hc : now - t < 30000
        · simp [pollStep, hl, hc]
        · simp [pollStep, hl, hc]
  · intro j now t hl hc
    simp [pollStep, hl, hc]
  · intro r rs n s h
    simp [pollLoop, h]
  · intro obs h
    simp [syncTriggerReport, pollLoop_none_of_all obs maxAttempts h]
  · intro obs h
    simp [syncTriggerReport, h]
  · intro obs h
    simp [syncTriggerReport, h]

/-- Witness for C1: a job whose `lastRunAt` is 20 seconds old and whose
`failCount` is 2 is attributed and reported failed. -/
theorem c1_sync_trigger_attribution_witness :
    pollStep (some ⟨"job-7", some 100000, 2⟩) 120000 = some RunStatus.failed := by
  have h := c1_sync_trigger_attribution.2.1 ⟨"job-7", some 100000, 2⟩
    120000 100000 rfl (by decide)
  simpa using h

/-- C2: the poll loop executes its body at most `maxAttempts = 150` times,
waits a fixed `pollDelayMs = 2000` before each attempt (hence blocks at
most 300000 ms in delays), and exits on the first attributed run. -/
theorem c2_poll_loop_bounded :
    (∀ (obs : List PollObs) (n : Nat), (pollLoop obs n).2 ≤ n)
    ∧ maxAttempts = 150 ∧ pollDelayMs = 2000
    ∧ (∀ obs : List PollObs,
        pollDelayMs * (pollLoop obs maxAttempts).2 ≤ 300000)
    ∧ (∀ (r : PollObs) (rs : List PollObs) (n : Nat) (s : RunStatus),
        pollStep r.1 r.2 = some s → pollLoop (r :: rs) (n + 1) = (some s, 1)) := by
  refine ⟨pollLoop_count_le, rfl, rfl, ?_, ?_⟩
  · intro obs
    have h := pollLoop_count_le obs maxAttempts
    have h150 : (pollLoop obs maxAttempts).2 ≤ 150 := h
    simp only [pollDelayMs]
    omega
  · intro r rs n s h
    simp [pollLoop, h]

/-- Witness for C2: a single successful poll stops after one iteration. -/
theorem c2_poll_loop_bounded_witness :
    pollLoop [((some ⟨"job-8", some 50000, 0⟩ : Option Job), (60000 : Int))] 1
      = (some RunStatus.success, 1) :=
  c2_poll_loop_bounded.2.2.2.2
    ((some ⟨"job-8", some 50000, 0⟩ : Option Job), (60000 : Int)) [] 0
    RunStatus.success (by decide)

/- ── C8: error terminality ── -/

/-- A doctor run in which the account is authenticated, the initial status
check succeeds, and the gateway fetch throws. -/
def c8Env : DoctorEnv :=
  { file := FileState.stored (JsValue.obj [("apiKey", JsValue.str "cp_live_key")])
    statusRes := Except.ok ()
    gatewayRes := Except.error "connection refused"
    testRes := Except.ok true
    statusRes2 := Except.ok () }

/-- Counterexample to C8: in `doctor`, the `getGateway` API call throws,
yet the command exits 0 — the failure is caught and only warned about, so
not every API failure makes the process exit nonzero. -/
theorem c8_counterexample :
    (Endpoint.getGateway, false) ∈ (doctorRun c8Env).1
    ∧ (doctorRun c8Env).2 = 0 := by
  constructor
  · show (Endpoint.getGateway, false) ∈
      [(Endpoint.getStatus, true), (Endpoint.getGateway, false),
       (Endpoint.getStatus, true)]
    simp
  · rfl

/-- C8 amended: no command retries a failed API call (formally: in the
call traces of `doctor` and `status`, no endpoint is called again after a
call to it threw).  `status` exits 1 whenever its one call throws, and
`doctor` exits 1 when its initial status check throws — but once that
check succeeds `doctor` always exits 0, treating gateway, gateway-test and
quota failures as warnings. -/
theorem c8_amended_no_retry_terminality :
    (∀ env : DoctorEnv, NoRetry (doctorRun env).1)
    ∧ (∀ (env : DoctorEnv) (msg : String),
        jsTruthyO (jsGet (loadConfig env.file) "apiKey") = true →
        env.statusRes = Except.error msg →
        doctorRun env = ([(Endpoint.getStatus, false)], 1))
    ∧ (∀ env : DoctorEnv,
        jsTruthyO (jsGet (loadConfig env.file) "apiKey") = true →
        env.statusRes = Except.ok () →
        (doctorRun env).2 = 0)
    ∧ (∀ msg : String,
        statusRun (Except.error msg) = ([(Endpoint.getStatus, false)], 1))
    ∧ statusRun (Except.ok ()) = ([(Endpoint.getStatus, true)], 0)
    ∧ (∀ res : Except String Unit, NoRetry (statusRun res).1) := by
  refine ⟨?_, ?_, ?_, fun _ => rfl, rfl, ?_⟩
  · intro env
    unfold doctorRun
    by_cases hk : jsTruthyO (jsGet (loadConfig env.file) "apiKey") = true
    · cases hs : env.statusRes with
      | error msg => simp [hk, hs, NoRetry]
      | ok u =>
        cases hg : env.gatewayRes with
        | error m =>
          simp [hk, hs, hg, NoRetry, List.pairwise_cons]
        | ok url =>
          by_cases hu : jsTruthyO url = true
          · simp [hk, hs, hg, hu, NoRetry, List.pairwise_cons]
          · simp [hk, hs, hg, hu, NoRetry, List.pairwise_cons]
    · simp [hk, NoRetry]
  · intro env msg hk hs
    simp [doctorRun, hk, hs]
  · intro env hk hs
    cases hg : env.gatewayRes with
    | error m => simp [doctorRun, hk, hs, hg]
    | ok url => by_cases hu : jsTruthyO url = true <;>
        simp [doctorRun, hk, hs, hg, hu]
  · intro res
    cases res <;> simp [statusRun, NoRetry]

/-- Witness for the amended C8: an authenticated doctor run whose initial
status check throws makes exactly that one call and exits 1. -/
theorem c8_amended_no_retry_terminality_witness :
    doctorRun
      { file := FileState.stored (JsValue.obj [("apiKey", JsValue.str "cp_k")])
        statusRes := Except.error "boom"
        gatewayRes := Except.ok none
        testRes := Except.ok true
        statusRes2 := Except.ok () }
      = ([(Endpoint.getStatus, false)], 1) :=
  c8_amended_no_retry_terminality.2.1
    { file := FileState.stored (JsValue.obj [("apiKey", JsValue.str "cp_k")])
      statusRes := Except.error "boom"
      gatewayRes := Except.ok none
      testRes := Except.ok true
      statusRes2 := Except.ok () }
    "boom" (by decide) rfl

/- ── C4: the validators ── -/

theorem append_len_pos (a b : String) (ha : a.length ≠ 0) :
    (a ++ b).length ≠ 0 := by
  rw [String.length_append]; omega

theorem appendNeEmpty (a b : String) (ha : a.length ≠ 0) : a ++ b ≠ "" := by
  intro h
  have h2 := congrArg String.length h
  rw [String.length_append] at h2
  simp at h2
  omega

theorem cron_shape (s : Option String) :
    validateCronExpression s = vOk ∨
    ∃ e, validateCronExpression s = vErr e ∧ e ≠ "" := by
  simp only [validateCronExpression]
  split
  · exact Or.inr ⟨_, rfl, by decide⟩
  · split
    · exact Or.inr ⟨_, rfl, by decide⟩
    · split
      · exact Or.inr ⟨_, rfl, by decide⟩
      · split
        · exact Or.inr ⟨_, rfl, appendNeEmpty _ _ (append_len_pos _ _ (by decide))⟩
        · split
          · exact Or.inr ⟨_, rfl, appendNeEmpty _ _ (append_len_pos _ _ (by decide))⟩
          · exact Or.inl rfl

theorem jobName_shape (s : Option String) :
    validateJobName s = vOk ∨
    ∃ e, validateJobName s = vErr e ∧ e ≠ "" := by
  simp only [validateJobName]
  split
  · exact Or.inr ⟨_, rfl, by decide⟩
  · split
    · exact Or.inr ⟨_, rfl, by decide⟩
    · split
      · exact Or.inr ⟨_, rfl, by decide⟩
      · split
        · exact Or.inr ⟨_, rfl, by decide⟩
        · split
          · exact Or.inr ⟨_, rfl, by decide⟩
          · exact Or.inl rfl

theorem message_shape (s : Option String) :
    validateMessage s = vOk ∨
    ∃ e, validateMessage s = vErr e ∧ e ≠ "" := by
  simp only [validateMessage]
  split
  · exact Or.inr ⟨_, rfl, by decide⟩
  · split
    · exact Or.inr ⟨_, rfl, by decide⟩
    · split
      · exact Or.inr ⟨_, rfl, by decide⟩
      · split
        · exact Or.inr ⟨_, rfl, by decide⟩
        · exact Or.inl rfl

theorem channel_shape (s : String) :
    validateChannel s = vOk ∨
    ∃ e, validateChannel s = vErr e ∧ e ≠ "" := by
  simp only [validateChannel]
  split
  · exact Or.inr ⟨_, rfl,
      appendNeEmpty _ _ (append_len_pos _ _ (append_len_pos _ _ (by decide)))⟩
  · exact Or.inl rfl

theorem chatId_shape (s : Option String) :
    validateTelegramChatId s = vOk ∨
    ∃ e, validateTelegramChatId s = vErr e ∧ e ≠ "" := by
  simp only [validateTelegramChatId]
  split
  · exact Or.inr ⟨_, rfl, by decide⟩
  · split
    · exact Or.inr ⟨_, rfl, by decide⟩
    · split
      · exact Or.inr ⟨_, rfl, by decide⟩
      · exact Or.inl rfl

theorem phone_shape (s : Option String) :
    validatePhoneNumber s = vOk ∨
    ∃ e, validatePhoneNumber s = vErr e ∧ e ≠ "" := by
  simp only [validatePhoneNumber]
  split
  · exact Or.inr ⟨_, rfl, by decide⟩
  · split
    · exact Or.inr ⟨_, rfl, by decide⟩
    · split
      · exact Or.inr ⟨_, rfl, by decide⟩
      · exact Or.inl rfl

theorem agentId_shape (s : Option String) :
    validateAgentId s = vOk ∨
    ∃ e, validateAgentId s = vErr e ∧ e ≠ "" := by
  simp only [validateAgentId]
  split
  · exact Or.inr ⟨_, rfl, by decide⟩
  · split
    · exact Or.inr ⟨_, rfl, by decide⟩
    · split
      · exact Or.inr ⟨_, rfl, by decide⟩
      · split
        · exact Or.inr ⟨_, rfl, by decide⟩
        · exact Or.inl rfl

theorem jobId_shape (s : Option String) :
    validateJobId s = vOk ∨
    ∃ e, validateJobId s = vErr e ∧ e ≠ "" := by
  simp only [validateJobId]
  split
  · exact Or.inr ⟨_, rfl, by decide⟩
  · split
    · exact Or.inr ⟨_, rfl, by decide⟩
    · split
      · exact Or.inr ⟨_, rfl, by decide⟩
      · split
        · exact Or.inr ⟨_, rfl, by decide⟩
        · exact Or.inl rfl

theorem integrationType_shape (s : Option String) :
    validateIntegrationType s = vOk ∨
    ∃ e, validateIntegrationType s = vErr e ∧ e ≠ "" := by
  simp only [validateIntegrationType]
  split
  · exact Or.inr ⟨_, rfl, by decide⟩
  · split
    · exact Or.inr ⟨_, rfl, by decide⟩
    · split
      · exact Or.inr ⟨_, rfl,
          appendNeEmpty _ _ (append_len_pos _ _ (append_len_pos _ _ (by decide)))⟩
      · exact Or.inl rfl

theorem webhookMethod_shape (s : Option String) :
    validateWebhookMethod s = vOk ∨
    ∃ e, validateWebhookMethod s = vErr e ∧ e ≠ "" := by
  simp only [validateWebhookMethod]
  split
  · exact Or.inr ⟨_, rfl, by decide⟩
  · split
    · exact Or.inr ⟨_, rfl, by decide⟩
    · split
      · exact Or.inr ⟨_, rfl,
          appendNeEmpty _ _ (append_len_pos _ _ (append_len_pos _ _ (by decide)))⟩
      · exact Or.inl rfl

theorem webhookBody_shape (s : Option String) :
    validateWebhookBody s = vOk ∨
    ∃ e, validateWebhookBody s = vErr e ∧ e ≠ "" := by
  simp only [validateWebhookBody]
  split
  · exact Or.inr ⟨_, rfl, by decide⟩
  · split
    · exact Or.inr ⟨_, rfl, by decide⟩
    · split
      · exact Or.inr ⟨_, rfl, by decide⟩
      · split
        · exact Or.inr ⟨_, rfl, by decide⟩
        · exact Or.inl rfl

theorem webhookUrl_shape (s : Option String) :
    validateWebhookUrl s = vOk ∨
    ∃ e, validateWebhookUrl s = vErr e ∧ e ≠ "" := by
  simp only [validateWebhookUrl]
  split
  · exact Or.inr ⟨_, rfl, by decide⟩
  · split
    · exact Or.inr ⟨_, rfl, by decide⟩
    · split
      · exact Or.inr ⟨_, rfl, by decide⟩
      · split
        · exact Or.inr ⟨_, rfl, by decide⟩
        · split
          · exact Or.inr ⟨_, rfl, by decide⟩
          · exact Or.inl rfl

theorem webhookHeaders_shape (s : Option String) :
    validateWebhookHeaders s = vOk ∨
    ∃ e, validateWebhookHeaders s = vErr e ∧ e ≠ "" := by
  simp only [validateWebhookHeaders]
  split
  · exact Or.inr ⟨_, rfl, by decide⟩
  · split
    · exact Or.inr ⟨_, rfl, by decide⟩
    · split
      · exact Or.inr ⟨_, rfl, by decide⟩
      · split
        · exact Or.inr ⟨_, rfl, by decide⟩
        · split
          · split
            · exact Or.inr ⟨_, rfl, appendNeEmpty _ _ (append_len_pos _ _ (by decide))⟩
            · exact Or.inl rfl
          · exact Or.inr ⟨_, rfl, by decide⟩
          · exact Or.inr ⟨_, rfl, by decide⟩
          · exact Or.inr ⟨_, rfl, by decide⟩

theorem shape_to_nonempty {r : VResult}
    (hshape : r = vOk ∨ ∃ e, r = vErr e ∧ e ≠ "") (h : r.valid = false) :
    ∃ e, r.error = some e ∧ e ≠ "" := by
  rcases hshape with hok | ⟨e, he, hne⟩
  · rw [hok] at h
    exact absurd h (by decide)
  · rw [he]
    exact ⟨e, rfl, hne⟩

/-- C4: every validator that rejects does so with a non-empty error
message (for any input whatsoever), the documented well-formed examples
are accepted, and representative inputs for each validator's documented
failure modes are rejected. -/
theorem c4_validators :
    (∀ s, (validateCronExpression s).valid = false →
        ∃ e, (validateCronExpression s).error = some e ∧ e ≠ "")
    ∧ (∀ s, (validateJobName s).valid = false →
        ∃ e, (validateJobName s).error = some e ∧ e ≠ "")
    ∧ (∀ s, (validateMessage s).valid = false →
        ∃ e, (validateMessage s).error = some e ∧ e ≠ "")
    ∧ (∀ s, (validateChannel s).valid = false →
        ∃ e, (validateChannel s).error = some e ∧ e ≠ "")
    ∧ (∀ s, (validateTelegramChatId s).valid = false →
        ∃ e, (validateTelegramChatId s).error = some e ∧ e ≠ "")
    ∧ (∀ s, (validatePhoneNumber s).valid = false →
        ∃ e, (validatePhoneNumber s).error = some e ∧ e ≠ "")
    ∧ (∀ s, (validateAgentId s).valid = false →
        ∃ e, (validateAgentId s).error = some e ∧ e ≠ "")
    ∧ (∀ s, (validateJobId s).valid = false →
        ∃ e, (validateJobId s).error = some e ∧ e ≠ "")
    ∧ (∀ s, (validateIntegrationType s).valid = false →
        ∃ e, (validateIntegrationType s).error = some e ∧ e ≠ "")
    ∧ (∀ s, (validateWebhookUrl s).valid = false →
        ∃ e, (validateWebhookUrl s).error = some e ∧ e ≠ "")
    ∧ (∀ s, (validateWebhookMethod s).valid = false →
        ∃ e, (validateWebhookMethod s).error = some e ∧ e ≠ "")
    ∧ (∀ s, (validateWebhookHeaders s).valid = false →
        ∃ e, (validateWebhookHeaders s).error = some e ∧ e ≠ "")
    ∧ (∀ s, (validateWebhookBody s).valid = false →
        ∃ e, (validateWebhookBody s).error = some e ∧ e ≠ "")
    ∧ (validateCronExpression (some "0 9 * * *")).valid = true
    ∧ (validatePhoneNumber (some "+15555551234")).valid = true
    ∧ (validateWebhookMethod (some "POST")).valid = true
    ∧ (validateCronExpression none).valid = false
    ∧ (validateCronExpression (some "0 9 * *")).valid = false
    ∧ (validateCronExpression (some "a * * * *")).valid = false
    ∧ (validateJobName (some "bad!name")).valid = false
    ∧ (validateMessage (some "   ")).valid = false
    ∧ (validateChannel "sms").valid = false
    ∧ (validateTelegramChatId (some "abc")).valid = false
    ∧ (validatePhoneNumber (some "15555551234")).valid = false
    ∧ (validateAgentId none).valid = false
    ∧ (validateJobId (some "nodigits")).valid = false
    ∧ (validateIntegrationType (some "email")).valid = false
    ∧ (validateWebhookUrl (some "ftp://example.com")).valid = false
    ∧ (validateWebhookUrl (some "not a url")).valid = false
    ∧ (validateWebhookMethod (some "PATCH")).valid = false
    ∧ (validateWebhookHeaders (some "[\"x\"]")).valid = false
    ∧ (validateWebhookHeaders (some "not json")).valid = false
    ∧ (validateWebhookBody (some "  ")).valid = false := by
  refine ⟨fun s h => shape_to_nonempty (cron_shape s) h,
    fun s h => shape_to_nonempty (jobName_shape s) h,
    fun s h => shape_to_nonempty (message_shape s) h,
    fun s h => shape_to_nonempty (channel_shape s) h,
    fun s h => shape_to_nonempty (chatId_shape s) h,
    fun s h => shape_to_nonempty (phone_shape s) h,
    fun s h => shape_to_nonempty (agentId_shape s) h,
    fun s h => shape_to_nonempty (jobId_shape s) h,
    fun s h => shape_to_nonempty (integrationType_shape s) h,
    fun s h => shape_to_nonempty (webhookUrl_shape s) h,
    fun s h => shape_to_nonempty (webhookMethod_shape s) h,
    fun s h => shape_to_nonempty (webhookHeaders_shape s) h,
    fun s h => shape_to_nonempty (webhookBody_shape s) h,
    ?_, ?_, ?_, ?_, ?_, ?_, ?_, ?_, ?_, ?_, ?_, ?_, ?_, ?_, ?_, ?_, ?_,
    ?_, ?_, ?_⟩ <;> decide

/-- Witness for C4: a cron expression with four fields is rejected with a
non-empty error. -/
theorem c4_validators_witness :
    ∃ e, (validateCronExpression (some "0 9 * *")).error = some e ∧ e ≠ "" :=
  c4_validators.1 (some "0 9 * *") (by decide)

/- ── C6: local validation failures exit before any network request ── -/

/-- All the local checks `jobs create` runs on the given options pass. -/
def CreatePass (o : CreateOpts) : Prop :=
  ¬(truthyOS o.integration = true ∧ (validateIntegrationType o.integration).valid = false)
  ∧ ¬((validateCronExpression (some o.cron)).valid = false)
  ∧ ¬((validateMessage (some o.message)).valid = false)
  ∧ ¬(truthyOS o.name = true ∧ (validateJobName o.name).valid = false)
  ∧ (effectiveIntegration o = "webhook" →
      (¬((validateWebhookUrl o.webhookUrl).valid = false)
        ∧ ¬((validateWebhookMethod o.webhookMethod).valid = false)
        ∧ ¬(truthyOS o.webhookHeaders = true
            ∧ (validateWebhookHeaders o.webhookHeaders).valid = false)
        ∧ ¬(truthyOS o.webhookBody = true
            ∧ (validateWebhookBody o.webhookBody).valid = false)))
  ∧ (¬(effectiveIntegration o = "webhook") →
      ¬(truthyOS o.agent = true ∧ (validateAgentId o.agent).valid = false))

/-- Case analysis of `jobsCreate`: either some local check failed and the
command exits with code 1, or every check the command ran passed. -/
theorem jobsCreate_cases (o : CreateOpts) :
    (∃ msg, jobsCreate o = CreateOutcome.validationExit msg 1)
    ∨ CreatePass o := by
  delta jobsCreate
  by_cases h1 : truthyOS o.integration = true
      ∧ (validateIntegrationType o.integration).valid = false
  · rw [if_pos h1]
    exact Or.inl ⟨_, rfl⟩
  · rw [if_neg h1]
    by_cases h2 : (validateCronExpression (some o.cron)).valid = false
    · rw [if_pos h2]
      exact Or.inl ⟨_, rfl⟩
    · rw [if_neg h2]
      by_cases h3 : (validateMessage (some o.message)).valid = false
      · rw [if_pos h3]
        exact Or.inl ⟨_, rfl⟩
      · rw [if_neg h3]
        by_cases h4 : truthyOS o.name = true ∧ (validateJobName o.name).valid = false
        · rw [if_pos h4]
          exact Or.inl ⟨_, rfl⟩
        · rw [if_neg h4]
          by_cases h5 : effectiveIntegration o = "webhook"
          · rw [if_pos h5]
            by_cases h6 : truthyOS o.webhookUrl = false
            · rw [if_pos h6]
              exact Or.inl ⟨_, rfl⟩
            · rw [if_neg h6]
              by_cases h7 : truthyOS o.webhookMethod = false
              · rw [if_pos h7]
                exact Or.inl ⟨_, rfl⟩
              · rw [if_neg h7]
                by_cases h8 : (validateWebhookUrl o.webhookUrl).valid = false
                · rw [if_pos h8]
                  exact Or.inl ⟨_, rfl⟩
                · rw [if_neg h8]
                  by_cases h9 : (validateWebhookMethod o.webhookMethod).valid = false
                  · rw [if_pos h9]
                    exact Or.inl ⟨_, rfl⟩
                  · rw [if_neg h9]
                    by_cases h10 : truthyOS o.webhookHeaders = true
                        ∧ (validateWebhookHeaders o.webhookHeaders).valid = false
                    · rw [if_pos h10]
                      exact Or.inl ⟨_, rfl⟩
                    · rw [if_neg h10]
                      by_cases h11 : truthyOS o.webhookBody = true
                          ∧ (validateWebhookBody o.webhookBody).valid = false
                      · rw [if_pos h11]
                        exact Or.inl ⟨_, rfl⟩
                      · rw [if_neg h11]
                        exact Or.inr ⟨h1, h2, h3, h4,
                          fun _ => ⟨h8, h9, h10, h11⟩, fun hn => absurd h5 hn⟩
          · rw [if_neg h5]
            by_cases h12 : truthyOS o.agent = true ∧ (validateAgentId o.agent).valid = false
            · rw [if_pos h12]
              exact Or.inl ⟨_, rfl⟩
            · rw [if_neg h12]
              exact Or.inr ⟨h1, h2, h3, h4,
                fun hw => absurd hw h5, fun _ => h12⟩

/-- All the provided-option checks `jobs update` runs pass. -/
def UpdatePass (o : UpdateOpts) : Prop :=
  ¬(truthyOS o.cron = true ∧ (validateCronExpression o.cron).valid = false)
  ∧ ¬(truthyOS o.message = true ∧ (validateMessage o.message).valid = false)
  ∧ ¬(truthyOS o.integration = true ∧ (validateIntegrationType o.integration).valid = false)
  ∧ ¬(truthyOS o.webhookUrl = true ∧ (validateWebhookUrl o.webhookUrl).valid = false)
  ∧ ¬(truthyOS o.webhookMethod = true ∧ (validateWebhookMethod o.webhookMethod).valid = false)
  ∧ ¬(truthyOS o.webhookHeaders = true
      ∧ (validateWebhookHeaders o.webhookHeaders).valid = false)

/-- Case analysis of `buildUpdates`: either some check on a provided
option failed, or all six provided-option checks passed. -/
theorem buildUpdates_cases (o : UpdateOpts) :
    (∃ m, buildUpdates o = Except.error m)
    ∨ UpdatePass o := by
  simp only [buildUpdates]
  by_cases h1 : truthyOS o.cron = true ∧ (validateCronExpression o.cron).valid = false
  · rw [if_pos h1]
    exact Or.inl ⟨_, rfl⟩
  · rw [if_neg h1]
    by_cases h2 : truthyOS o.message = true ∧ (validateMessage o.message).valid = false
    · rw [if_pos h2]
      exact Or.inl ⟨_, rfl⟩
    · rw [if_neg h2]
      by_cases h3 : truthyOS o.integration = true
          ∧ (validateIntegrationType o.integration).valid = false
      · rw [if_pos h3]
        exact Or.inl ⟨_, rfl⟩
      · rw [if_neg h3]
        by_cases h4 : truthyOS o.webhookUrl = true
            ∧ (validateWebhookUrl o.webhookUrl).valid = false
        · rw [if_pos h4]
          exact Or.inl ⟨_, rfl⟩
        · rw [if_neg h4]
          by_cases h5 : truthyOS o.webhookMethod = true
              ∧ (validateWebhookMethod o.webhookMethod).valid = false
          · rw [if_pos h5]
            exact Or.inl ⟨_, rfl⟩
          · rw [if_neg h5]
            by_cases h6 : truthyOS o.webhookHeaders = true
                ∧ (validateWebhookHeaders o.webhookHeaders).valid = false
            · rw [if_pos h6]
              exact Or.inl ⟨_, rfl⟩
            · rw [if_neg h6]
              exact Or.inr ⟨h1, h2, h3, h4, h5, h6⟩

/-- C6: for `jobs create` and `jobs update`, whenever any validator the
command runs rejects its input, the command prints the error and exits
with code 1, and no API call is issued (the `api`/`noUpdates` outcomes are
never produced — a `validationExit` is). -/
theorem c6_validation_before_network :
    (∀ o : CreateOpts,
      ((truthyOS o.integration = true ∧ (validateIntegrationType o.integration).valid = false)
        ∨ (validateCronExpression (some o.cron)).valid = false
        ∨ (validateMessage (some o.message)).valid = false
        ∨ (truthyOS o.name = true ∧ (validateJobName o.name).valid = false)
        ∨ (effectiveIntegration o = "webhook" ∧ (validateWebhookUrl o.webhookUrl).valid = false)
        ∨ (effectiveIntegration o = "webhook" ∧ (validateWebhookMethod o.webhookMethod).valid = false)
        ∨ (effectiveIntegration o = "webhook" ∧ truthyOS o.webhookHeaders = true
            ∧ (validateWebhookHeaders o.webhookHeaders).valid = false)
        ∨ (effectiveIntegration o = "webhook" ∧ truthyOS o.webhookBody = true
            ∧ (validateWebhookBody o.webhookBody).valid = false)
        ∨ (¬ effectiveIntegration o = "webhook" ∧ truthyOS o.agent = true
            ∧ (validateAgentId o.agent).valid = false)) →
      ∃ msg, jobsCreate o = CreateOutcome.validationExit msg 1)
    ∧ (∀ (jobId : String) (o : UpdateOpts),
      ((truthyOS o.cron = true ∧ (validateCronExpression o.cron).valid = false)
        ∨ (truthyOS o.message = true ∧ (validateMessage o.message).valid = false)
        ∨ (truthyOS o.integration = true ∧ (validateIntegrationType o.integration).valid = false)
        ∨ (truthyOS o.webhookUrl = true ∧ (validateWebhookUrl o.webhookUrl).valid = false)
        ∨ (truthyOS o.webhookMethod = true ∧ (validateWebhookMethod o.webhookMethod).valid = false)
        ∨ (truthyOS o.webhookHeaders = true ∧ (validateWebhookHeaders o.webhookHeaders).valid = false)) →
      ∃ msg, jobsUpdate jobId o = UpdateOutcome.validationExit msg 1) := by
  constructor
  · intro o h
    rcases jobsCreate_cases o with hexit | hpass
    · exact hexit
    · exfalso
      obtain ⟨p1, p2, p3, p4, pw, pa⟩ := hpass
      rcases h with h|h|h|h|h|h|h|h|h
      · exact p1 h
      · exact p2 h
      · exact p3 h
      · exact p4 h
      · exact (pw h.1).1 h.2
      · exact (pw h.1).2.1 h.2
      · exact (pw h.1).2.2.1 ⟨h.2.1, h.2.2⟩
      · exact (pw h.1).2.2.2 ⟨h.2.1, h.2.2⟩
      · exact pa h.1 ⟨h.2.1, h.2.2⟩
  · intro jobId o h
    rcases buildUpdates_cases o with ⟨m, hm⟩ | hpass
    · exact ⟨m, by simp [jobsUpdate, hm]⟩
    · exfalso
      obtain ⟨p1, p2, p3, p4, p5, p6⟩ := hpass
      rcases h with h|h|h|h|h|h
      · exact p1 h
      · exact p2 h
      · exact p3 h
      · exact p4 h
      · exact p5 h
      · exact p6 h

/-- Witness for C6: `jobs create` with a malformed cron exits with code 1
before reaching the API. -/
theorem c6_validation_before_network_witness :
    ∃ msg, jobsCreate
      { cron := "every morning", message := "hi", name := none,
        integration := none, agent := none, channel := none,
        deliver := false, replyTo := none, webhookUrl := none,
        webhookMethod := none, webhookHeaders := none, webhookBody := none,
        timezone := none }
      = CreateOutcome.validationExit msg 1 :=
  c6_validation_before_network.1
    { cron := "every morning", message := "hi", name := none,
      integration := none, agent := none, channel := none,
      deliver := false, replyTo := none, webhookUrl := none,
      webhookMethod := none, webhookHeaders := none, webhookBody := none,
      timezone := none }
    (Or.inr (Or.inl (by decide)))

end Clawtick
